import Mathlib

/-!
Shallow embedding of `src/build.py`, a 13-line build-and-package script.

The script does the following, in order:
1. `os.system("powershell ./build.ps1")`; if the return value is nonzero it
   prints the fixed message `"编译失败"` and calls `exit(1)`.
2. Otherwise it opens `zipfile.ZipFile("build.zip", "w")` — which creates or
   truncates `build.zip` at the working-directory root — and calls
   `zip.write(path, arcname)` five times, once per target triple, in the
   literal order of the source lines.

`zip.write` reads the source file and appends one archive entry whose name is
the given arcname and whose content is the file's content.  If the source
file is missing, `zip.write` raises `FileNotFoundError`; the `with` block then
closes the archive, flushing the entries written so far, and the interpreter
terminates with exit status 1 (uncaught exception).  There is no existence or
size check before zipping, no temporary output path, and no validation stage.

The filesystem is modelled as an association list from path to `FileData`;
an archive file's content is modelled abstractly as its list of entries.
-/

namespace Sasa

/-- Content of a file: either raw bytes, or (for the produced `build.zip`)
an archive holding a list of named entries. -/
inductive FileData where
  | bytes (bs : List Nat)
  | archive (entries : List (String × FileData))

/-- A filesystem: association list from path to file content; absent key =
missing file.  Later occurrences of a key are shadowed by earlier ones. -/
abbrev FS := List (String × FileData)

/-- Look a path up in the filesystem. -/
def lookupFS : FS → String → Option FileData
  | [], _ => none
  | e :: rest, p => if e.1 = p then some e.2 else lookupFS rest p

/-- Create or overwrite the file at path `p` with content `d`. -/
def setFS (fs : FS) (p : String) (d : FileData) : FS := (p, d) :: fs

/-- The output path of the archive, `zipfile.ZipFile("build.zip", "w")`:
a bare filename, so the file lives at the working-directory root. -/
def outPath : String := "build.zip"

/-- The message printed when `os.system` returns nonzero
(`print("编译失败")`, "build failed"). -/
def buildFailMsg : String := "编译失败"

/-- The five `zip.write(path, arcname)` calls of the source, in source-line
order: (source path, arcname). -/
def manifest : List (String × String) :=
  [("./target/x86_64-pc-windows-gnu/release/sasa.dll", "x86_64-pc-windows-gnu/sasa.dll"),
   ("./target/i686-pc-windows-gnu/release/sasa.dll", "i686-pc-windows-gnu/sasa.dll"),
   ("./target/aarch64-linux-android/release/libsasa.so", "aarch64-linux-android/libsasa.so"),
   ("./target/armv7-linux-androideabi/release/libsasa.so", "armv7-linux-androideabi/libsasa.so"),
   ("./target/aarch64-apple-ios/release/libsasa.a", "aarch64-apple-ios/libsasa.a")]

/-- The five target triples appearing in the source's paths and arcnames. -/
def triples : List String :=
  ["x86_64-pc-windows-gnu", "i686-pc-windows-gnu", "aarch64-linux-android",
   "armv7-linux-androideabi", "aarch64-apple-ios"]

/-- State at the end of the `zip.write` loop: the entries flushed into the
archive, the artifact paths whose read was attempted (in order), and the
path of the `FileNotFoundError`, if one was raised. -/
structure PackState where
  entries : List (String × FileData)
  reads : List String
  error : Option String

/-- The sequence of `zip.write(path, arcname)` calls: each call reads `path`
and appends the entry `(arcname, content)`; the first missing path raises,
stopping the loop with the entries written so far. -/
def packEntries (fs : FS) : List (String × String) → PackState
  | [] => ⟨[], [], none⟩
  | pa :: rest =>
    match lookupFS fs pa.1 with
    | none => ⟨[], [pa.1], some pa.1⟩
    | some d =>
      let s := packEntries fs rest
      ⟨(pa.2, d) :: s.entries, pa.1 :: s.reads, s.error⟩

/-- Filesystem events the script performs, in order: opening (and thereby
truncating) the output archive, and reading an artifact file. -/
inductive Event where
  | openArchive
  | readFile (p : String)
deriving DecidableEq

/-- Observable outcome of one run of the script. -/
structure RunResult where
  printed : List String
  exitCode : Nat
  raised : Option String
  reads : List String
  events : List Event
  fsAfter : FS

/-- One run of `build.py`: `c` is the value `os.system("powershell
./build.ps1")` returned, `fs` the filesystem when the script starts.
If `c ≠ 0` the script prints `编译失败` and exits 1, touching no file.
Otherwise opening the `ZipFile` truncates `outPath` first, then the five
`zip.write` calls run; an uncaught `FileNotFoundError` makes the
interpreter exit with status 1, after the `with` block flushed the
entries written so far into `build.zip`. -/
def run (c : Int) (fs : FS) : RunResult :=
  if c != 0 then
    { printed := [buildFailMsg], exitCode := 1, raised := none, reads := [],
      events := [], fsAfter := fs }
  else
    let fs1 := setFS fs outPath (FileData.archive [])
    let s := packEntries fs1 manifest
    { printed := [],
      exitCode := if s.error.isSome then 1 else 0,
      raised := s.error,
      reads := s.reads,
      events := Event.openArchive :: s.reads.map Event.readFile,
      fsAfter := setFS fs1 outPath (FileData.archive s.entries) }

/-- Pipeline stages, for the temporal claims about the script's control
flow.  The source has exactly two stages: the `os.system` call (building)
and the `zipfile` block (packaging); there is no validation stage. -/
inductive Stage where
  | start
  | building
  | buildFailed
  | validating
  | validationFailed
  | packaging
  | packageFailed
  | done
deriving DecidableEq

/-- The stage trace of a run, read off the script's top-level control flow:
the `os.system` call is the building stage; if it fails the script stops,
otherwise the `zipfile` block is the packaging stage, ending in failure
(uncaught exception) or completion. -/
def trace (c : Int) (fs : FS) : List Stage :=
  if c != 0 then [Stage.start, Stage.building, Stage.buildFailed]
  else
    let fs1 := setFS fs outPath (FileData.archive [])
    if (packEntries fs1 manifest).error.isSome then
      [Stage.start, Stage.building, Stage.packaging, Stage.packageFailed]
    else
      [Stage.start, Stage.building, Stage.packaging, Stage.done]

/-- A filesystem holding all five artifacts, each a one-byte file. -/
def fsFull : FS := manifest.map (fun pa => (pa.1, FileData.bytes [7]))

/-- A filesystem holding all five artifacts as zero-length files. -/
def fsZero : FS := manifest.map (fun pa => (pa.1, FileData.bytes []))

/-- A filesystem holding only the first artifact of the manifest. -/
def fsOne : FS :=
  [("./target/x86_64-pc-windows-gnu/release/sasa.dll", FileData.bytes [1])]

/-! Helper lemmas about the filesystem and the packing loop. -/

theorem lookupFS_setFS (fs : FS) (q p : String) (d : FileData) :
    lookupFS (setFS fs q d) p = if q = p then some d else lookupFS fs p := rfl

theorem manifest_path_ne_outPath : ∀ pa ∈ manifest, pa.1 ≠ outPath := by decide

theorem lookupFS_setFS_manifest (fs : FS) (d : FileData) (pa : String × String)
    (hm : pa ∈ manifest) :
    lookupFS (setFS fs outPath d) pa.1 = lookupFS fs pa.1 := by
  rw [lookupFS_setFS]
  simp [Ne.symm (manifest_path_ne_outPath pa hm)]

theorem packEntries_congr (fs fs' : FS) (l : List (String × String))
    (h : ∀ pa ∈ l, lookupFS fs pa.1 = lookupFS fs' pa.1) :
    packEntries fs l = packEntries fs' l := by
  induction l with
  | nil => rfl
  | cons pa rest ih =>
    have hpa := h pa (List.mem_cons_self _ _)
    have hrest : ∀ qa ∈ rest, lookupFS fs qa.1 = lookupFS fs' qa.1 :=
      fun qa hq => h qa (List.mem_cons_of_mem _ hq)
    simp only [packEntries, hpa, ih hrest]

theorem packEntries_trunc (fs : FS) (d : FileData) :
    packEntries (setFS fs outPath d) manifest = packEntries fs manifest :=
  packEntries_congr _ _ _ (fun pa hm => lookupFS_setFS_manifest fs d pa hm)

theorem packEntries_entries_eq (fs : FS) (l : List (String × String)) :
    (packEntries fs l).entries =
      (l.takeWhile (fun pa => (lookupFS fs pa.1).isSome)).filterMap
        (fun pa => (lookupFS fs pa.1).map (fun d => (pa.2, d))) := by
  induction l with
  | nil => rfl
  | cons pa rest ih =>
    cases h : lookupFS fs pa.1 with
    | none => simp [packEntries, h, List.takeWhile_cons]
    | some d => simp [packEntries, h, List.takeWhile_cons, ih]

theorem packEntries_names (fs : FS) (l : List (String × String)) :
    (packEntries fs l).entries.map Prod.fst =
      (l.takeWhile (fun pa => (lookupFS fs pa.1).isSome)).map Prod.snd := by
  induction l with
  | nil => rfl
  | cons pa rest ih =>
    cases h : lookupFS fs pa.1 with
    | none => simp [packEntries, h, List.takeWhile_cons]
    | some d => simp [packEntries, h, List.takeWhile_cons, ih]

theorem packEntries_error_none_iff (fs : FS) (l : List (String × String)) :
    (packEntries fs l).error = none ↔ ∀ pa ∈ l, (lookupFS fs pa.1).isSome := by
  induction l with
  | nil => simp [packEntries]
  | cons pa rest ih =>
    cases h : lookupFS fs pa.1 with
    | none => simp [packEntries, h]
    | some d => simp [packEntries, h, ih]

theorem packEntries_error_mem (fs : FS) (l : List (String × String)) (p : String)
    (h : (packEntries fs l).error = some p) : p ∈ l.map Prod.fst := by
  induction l with
  | nil => simp [packEntries] at h
  | cons pa rest ih =>
    cases hl : lookupFS fs pa.1 with
    | none =>
      simp [packEntries, hl] at h
      simp [h]
    | some d =>
      simp only [packEntries, hl] at h
      simp [ih h]

theorem packEntries_reads_subset (fs : FS) (l : List (String × String)) :
    (packEntries fs l).reads ⊆ l.map Prod.fst := by
  induction l with
  | nil => simp [packEntries]
  | cons pa rest ih =>
    cases hl : lookupFS fs pa.1 with
    | none => simp [packEntries, hl]
    | some d =>
      intro x hx
      simp [packEntries, hl] at hx
      rcases hx with h | h
      · simp [h]
      · exact List.mem_cons_of_mem _ (ih h)

theorem takeWhile_all {α : Type} (p : α → Bool) (l : List α) (h : ∀ a ∈ l, p a) :
    l.takeWhile p = l := by
  induction l with
  | nil => rfl
  | cons a rest ih =>
    have ha := h a (List.mem_cons_self _ _)
    simp [List.takeWhile_cons, ha, ih (fun b hb => h b (List.mem_cons_of_mem _ hb))]

theorem run_zero_printed (fs : FS) : (run 0 fs).printed = [] := rfl

theorem run_zero_raised (fs : FS) :
    (run 0 fs).raised = (packEntries fs manifest).error := by
  simp [run, packEntries_trunc]

theorem run_zero_exit (fs : FS) :
    (run 0 fs).exitCode = if (packEntries fs manifest).error.isSome then 1 else 0 := by
  simp [run, packEntries_trunc]

theorem run_zero_reads (fs : FS) :
    (run 0 fs).reads = (packEntries fs manifest).reads := by
  simp [run, packEntries_trunc]

theorem run_zero_events (fs : FS) :
    (run 0 fs).events =
      Event.openArchive :: ((packEntries fs manifest).reads.map Event.readFile) := by
  simp [run, packEntries_trunc]

theorem run_zero_outfile (fs : FS) :
    lookupFS (run 0 fs).fsAfter outPath =
      some (FileData.archive (packEntries fs manifest).entries) := by
  simp [run, lookupFS_setFS, packEntries_trunc]

theorem run_zero_frame (fs : FS) (p : String) (h : p ≠ outPath) :
    lookupFS (run 0 fs).fsAfter p = lookupFS fs p := by
  simp [run, lookupFS_setFS, Ne.symm h]

theorem run_build_fail (c : Int) (fs : FS) (h : c ≠ 0) :
    run c fs = { printed := [buildFailMsg], exitCode := 1, raised := none,
                 reads := [], events := [], fsAfter := fs } := by
  have hb : (c != 0) = true := bne_iff_ne.mpr h
  simp [run, hb]

/-! Claim theorems. -/

/-- C1, counterexample: with the build succeeding and every artifact missing,
an archive file does exist at the output path (refuting "no file exists at
the output path") and no failing triple is printed; and with all five
artifacts present but zero-length, the run succeeds (refuting "a zero-length
artifact is a hard failure"). -/
theorem C1_counterexample :
    (∃ es, lookupFS (run 0 ([] : FS)).fsAfter outPath = some (FileData.archive es)) ∧
    (run 0 ([] : FS)).printed = [] ∧
    (run 0 fsZero).exitCode = 0 :=
  ⟨⟨[], rfl⟩, rfl, rfl⟩

/-- C1, amended: if the build succeeds but a declared artifact is missing,
the run raises an uncaught error and exits 1 without printing any failing
triple, but an archive file does exist at the output path; a zero-length
artifact is not detected: when all five artifact files exist the run
succeeds regardless of their sizes. -/
theorem C1_missing_artifact_behavior (fs : FS) :
    ((∃ pa ∈ manifest, (lookupFS fs pa.1).isNone) →
      (run 0 fs).raised.isSome ∧ (run 0 fs).exitCode = 1 ∧
      (run 0 fs).printed = [] ∧
      ∃ es, lookupFS (run 0 fs).fsAfter outPath = some (FileData.archive es)) ∧
    ((∀ pa ∈ manifest, (lookupFS fs pa.1).isSome) →
      (run 0 fs).exitCode = 0 ∧ (run 0 fs).raised = none) := by
  constructor
  · rintro ⟨pa, hm, hnone⟩
    have herr : (packEntries fs manifest).error ≠ none := by
      rw [Ne, packEntries_error_none_iff]
      intro hall
      have hpa := hall pa hm
      rw [Option.isNone_iff_eq_none] at hnone
      simp [hnone] at hpa
    have hsome : (packEntries fs manifest).error.isSome :=
      Option.ne_none_iff_isSome.mp herr
    refine ⟨?_, ?_, rfl, ⟨_, run_zero_outfile fs⟩⟩
    · rw [run_zero_raised]; exact hsome
    · rw [run_zero_exit]; simp [hsome]
  · intro hall
    have hnone : (packEntries fs manifest).error = none :=
      (packEntries_error_none_iff _ _).mpr hall
    constructor
    · rw [run_zero_exit]; simp [hnone]
    · rw [run_zero_raised]; exact hnone

/-- C1, witness: the amended claim evaluated on the empty filesystem (all
artifacts missing) and on the all-zero-length filesystem. -/
theorem C1_witness :
    ((run 0 ([] : FS)).raised.isSome ∧ (run 0 ([] : FS)).exitCode = 1 ∧
      (run 0 ([] : FS)).printed = [] ∧
      ∃ es, lookupFS (run 0 ([] : FS)).fsAfter outPath = some (FileData.archive es)) ∧
    ((run 0 fsZero).exitCode = 0 ∧ (run 0 fsZero).raised = none) :=
  ⟨(C1_missing_artifact_behavior []).1
      ⟨("./target/x86_64-pc-windows-gnu/release/sasa.dll",
        "x86_64-pc-windows-gnu/sasa.dll"), by decide, by decide⟩,
   (C1_missing_artifact_behavior fsZero).2 (by decide)⟩

/-- C2: if the external build invocation returns a nonzero status, the script
prints the failure message and stops with exit code 1: no artifact path is
read, no filesystem event happens, the filesystem is unchanged, and no
archive is produced. -/
theorem C2_build_failure_stops_run (c : Int) (fs : FS) (h : c ≠ 0) :
    (run c fs).reads = [] ∧ (run c fs).events = [] ∧
    (run c fs).fsAfter = fs ∧ (run c fs).exitCode = 1 ∧
    (run c fs).printed = [buildFailMsg] := by
  rw [run_build_fail c fs h]
  exact ⟨rfl, rfl, rfl, rfl, rfl⟩

/-- C2, witness: the build-failure claim evaluated at exit status 1 on the
empty filesystem. -/
theorem C2_witness :
    (run 1 ([] : FS)).reads = [] ∧ (run 1 ([] : FS)).events = [] ∧
    (run 1 ([] : FS)).fsAfter = [] ∧ (run 1 ([] : FS)).exitCode = 1 ∧
    (run 1 ([] : FS)).printed = [buildFailMsg] :=
  C2_build_failure_stops_run 1 [] (by decide)

/-- C3, counterexample: with the first artifact present and the second
missing, the run aborts, yet a partial archive holding the first entry sits
at the final output path — refuting "the archive is written to a temporary
path and renamed only on full success, so no partial archive ever exists at
the final output path". -/
theorem C3_counterexample :
    (run 0 fsOne).raised.isSome = true ∧
    lookupFS (run 0 fsOne).fsAfter outPath =
      some (FileData.archive [("x86_64-pc-windows-gnu/sasa.dll", FileData.bytes [1])]) :=
  ⟨rfl, rfl⟩

/-- C3, amended: an I/O failure (missing artifact) while packaging aborts
the rest of the loop and the run exits 1, but the archive is written
directly at the final output path, not a temporary path: a partial archive
containing exactly the entries for the longest all-present prefix of the
manifest remains at the output path. -/
theorem C3_partial_archive_at_final_path (fs : FS)
    (h : ∃ pa ∈ manifest, (lookupFS fs pa.1).isNone) :
    (run 0 fs).exitCode = 1 ∧ (run 0 fs).raised.isSome ∧
    lookupFS (run 0 fs).fsAfter outPath =
      some (FileData.archive
        ((manifest.takeWhile (fun pa => (lookupFS fs pa.1).isSome)).filterMap
          (fun pa => (lookupFS fs pa.1).map (fun d => (pa.2, d))))) := by
  obtain ⟨pa, hm, hnone⟩ := h
  have herr : (packEntries fs manifest).error ≠ none := by
    rw [Ne, packEntries_error_none_iff]
    intro hall
    have hpa := hall pa hm
    rw [Option.isNone_iff_eq_none] at hnone
    simp [hnone] at hpa
  have hsome : (packEntries fs manifest).error.isSome :=
    Option.ne_none_iff_isSome.mp herr
  refine ⟨?_, ?_, ?_⟩
  · rw [run_zero_exit]; simp [hsome]
  · rw [run_zero_raised]; exact hsome
  · rw [run_zero_outfile, packEntries_entries_eq]

/-- C3, witness: the amended claim evaluated on the filesystem holding only
the first artifact. -/
theorem C3_witness :
    (run 0 fsOne).exitCode = 1 ∧ (run 0 fsOne).raised.isSome ∧
    lookupFS (run 0 fsOne).fsAfter outPath =
      some (FileData.archive
        ((manifest.takeWhile (fun pa => (lookupFS fsOne pa.1).isSome)).filterMap
          (fun pa => (lookupFS fsOne pa.1).map (fun d => (pa.2, d))))) :=
  C3_partial_archive_at_final_path fsOne
    ⟨("./target/i686-pc-windows-gnu/release/sasa.dll", "i686-pc-windows-gnu/sasa.dll"),
     by decide, by decide⟩

/-- C4: if the build succeeds and all declared artifacts are present, the
archive at the output path has exactly one entry per manifest target, at
path triple/archive-name, whose content is the source artifact's content
unchanged, the entry names are exactly the manifest arcnames in order and
pairwise distinct, and the run exits 0. -/
theorem C4_full_manifest_archive (fs : FS)
    (h : ∀ pa ∈ manifest, (lookupFS fs pa.1).isSome) :
    ∃ es, lookupFS (run 0 fs).fsAfter outPath = some (FileData.archive es) ∧
      es = manifest.filterMap
        (fun pa => (lookupFS fs pa.1).map (fun d => (pa.2, d))) ∧
      es.map Prod.fst = manifest.map Prod.snd ∧
      (es.map Prod.fst).Nodup ∧
      (run 0 fs).exitCode = 0 := by
  have hnames : (packEntries fs manifest).entries.map Prod.fst = manifest.map Prod.snd := by
    rw [packEntries_names, takeWhile_all _ _ h]
  refine ⟨(packEntries fs manifest).entries, run_zero_outfile fs, ?_, hnames, ?_, ?_⟩
  · rw [packEntries_entries_eq, takeWhile_all _ _ h]
  · rw [hnames]; decide
  · have hnone : (packEntries fs manifest).error = none :=
      (packEntries_error_none_iff _ _).mpr h
    rw [run_zero_exit]; simp [hnone]

/-- C4, witness: the full-manifest claim evaluated on a filesystem holding
all five artifacts as one-byte files. -/
theorem C4_witness :
    ∃ es, lookupFS (run 0 fsFull).fsAfter outPath = some (FileData.archive es) ∧
      es = manifest.filterMap
        (fun pa => (lookupFS fsFull pa.1).map (fun d => (pa.2, d))) ∧
      es.map Prod.fst = manifest.map Prod.snd ∧
      (es.map Prod.fst).Nodup ∧
      (run 0 fsFull).exitCode = 0 :=
  C4_full_manifest_archive fsFull (by decide)

/-- Swapping the two entries of a two-key filesystem with distinct keys does
not change any lookup. -/
theorem lookupFS_pair_comm (k1 k2 : String) (d1 d2 : FileData) (hk : k1 ≠ k2)
    (p : String) :
    lookupFS [(k1, d1), (k2, d2)] p = lookupFS [(k2, d2), (k1, d1)] p := by
  by_cases h1 : k1 = p <;> by_cases h2 : k2 = p <;>
    simp [lookupFS, h1, h2]
  exact absurd (h1.trans h2.symm) hk

/-- Two filesystems assigning the same content to the first two manifest
paths, in opposite list order. -/
def fsPermA : FS :=
  [("./target/x86_64-pc-windows-gnu/release/sasa.dll", FileData.bytes [1]),
   ("./target/i686-pc-windows-gnu/release/sasa.dll", FileData.bytes [2])]

/-- The same two files as `fsPermA`, enumerated in the opposite order. -/
def fsPermB : FS :=
  [("./target/i686-pc-windows-gnu/release/sasa.dll", FileData.bytes [2]),
   ("./target/x86_64-pc-windows-gnu/release/sasa.dll", FileData.bytes [1])]

/-- C5: two runs whose inputs agree — same build outcome and the same
content at every path, regardless of how the filesystem happens to be
enumerated — produce the same archive (same entries in the same order), the
same output and the same exit code; and the archive's entry names are
always in manifest order, not in any filesystem enumeration order. -/
theorem C5_deterministic_manifest_order (c : Int) (fs fs' : FS)
    (h : ∀ p, lookupFS fs p = lookupFS fs' p) :
    (∀ p, lookupFS (run c fs).fsAfter p = lookupFS (run c fs').fsAfter p) ∧
    (run c fs).printed = (run c fs').printed ∧
    (run c fs).exitCode = (run c fs').exitCode ∧
    (∀ es, lookupFS (run 0 fs).fsAfter outPath = some (FileData.archive es) →
      es.map Prod.fst =
        (manifest.takeWhile (fun pa => (lookupFS fs pa.1).isSome)).map Prod.snd) := by
  have hpack : packEntries fs manifest = packEntries fs' manifest :=
    packEntries_congr _ _ _ (fun pa _ => h pa.1)
  refine ⟨?_, ?_, ?_, ?_⟩
  · intro p
    by_cases hc : c = 0
    · subst hc
      by_cases hp : p = outPath
      · subst hp
        rw [run_zero_outfile, run_zero_outfile, hpack]
      · rw [run_zero_frame fs p hp, run_zero_frame fs' p hp]
        exact h p
    · rw [run_build_fail c fs hc, run_build_fail c fs' hc]
      exact h p
  · by_cases hc : c = 0
    · subst hc; rfl
    · rw [run_build_fail c fs hc, run_build_fail c fs' hc]
  · by_cases hc : c = 0
    · subst hc
      rw [run_zero_exit, run_zero_exit, hpack]
    · rw [run_build_fail c fs hc, run_build_fail c fs' hc]
  · intro es hes
    rw [run_zero_outfile] at hes
    have hentries : (packEntries fs manifest).entries = es :=
      FileData.archive.inj (Option.some.inj hes)
    rw [← hentries, packEntries_names]

/-- C5, witness: the determinism claim evaluated on the two-file filesystem
and its reversed enumeration. -/
theorem C5_witness :
    (∀ p, lookupFS (run 0 fsPermA).fsAfter p = lookupFS (run 0 fsPermB).fsAfter p) ∧
    (run 0 fsPermA).printed = (run 0 fsPermB).printed ∧
    (run 0 fsPermA).exitCode = (run 0 fsPermB).exitCode ∧
    (∀ es, lookupFS (run 0 fsPermA).fsAfter outPath = some (FileData.archive es) →
      es.map Prod.fst =
        (manifest.takeWhile (fun pa => (lookupFS fsPermA pa.1).isSome)).map Prod.snd) :=
  C5_deterministic_manifest_order 0 fsPermA fsPermB
    (fun p => lookupFS_pair_comm _ _ _ _ (by decide) p)

/-- C6: every run that exits 0 had a successful build and leaves at the
working-directory-root path `build.zip` an archive with exactly five
entries, named (in order) by the five triple-scoped, forward-slash entry
paths of the source. -/
theorem C6_success_five_entries (c : Int) (fs : FS)
    (h : (run c fs).exitCode = 0) :
    c = 0 ∧ outPath = "build.zip" ∧
    ∃ es, lookupFS (run c fs).fsAfter outPath = some (FileData.archive es) ∧
      es.map Prod.fst =
        ["x86_64-pc-windows-gnu/sasa.dll", "i686-pc-windows-gnu/sasa.dll",
         "aarch64-linux-android/libsasa.so", "armv7-linux-androideabi/libsasa.so",
         "aarch64-apple-ios/libsasa.a"] ∧
      es.length = 5 := by
  have hc : c = 0 := by
    by_contra hne
    rw [run_build_fail c fs hne] at h
    exact Nat.one_ne_zero h
  subst hc
  rw [run_zero_exit] at h
  have hnone : (packEntries fs manifest).error.isSome = false := by
    by_cases hs : (packEntries fs manifest).error.isSome
    · rw [hs] at h; exact absurd h (by decide)
    · simpa using hs
  have hall : ∀ pa ∈ manifest, (lookupFS fs pa.1).isSome :=
    (packEntries_error_none_iff _ _).mp (Option.not_isSome_iff_eq_none.mp (by simp [hnone]))
  have hnames : (packEntries fs manifest).entries.map Prod.fst
      = manifest.map Prod.snd := by
    rw [packEntries_names, takeWhile_all _ _ hall]
  refine ⟨rfl, rfl, (packEntries fs manifest).entries, run_zero_outfile fs, ?_, ?_⟩
  · rw [hnames]; rfl
  · have : ((packEntries fs manifest).entries.map Prod.fst).length = 5 := by
      rw [hnames]; rfl
    simpa using this

/-- C6, witness: the successful-run claim evaluated on the filesystem
holding all five artifacts. -/
theorem C6_witness :
    (0 : Int) = 0 ∧ outPath = "build.zip" ∧
    ∃ es, lookupFS (run 0 fsFull).fsAfter outPath = some (FileData.archive es) ∧
      es.map Prod.fst =
        ["x86_64-pc-windows-gnu/sasa.dll", "i686-pc-windows-gnu/sasa.dll",
         "aarch64-linux-android/libsasa.so", "armv7-linux-androideabi/libsasa.so",
         "aarch64-apple-ios/libsasa.a"] ∧
      es.length = 5 :=
  C6_success_five_entries 0 fsFull (by decide)

/-- C7, counterexample: a run in which the packaging stage executes (and
fails, all artifacts being absent) has no validation stage anywhere in its
trace — refuting "a validation stage runs after building and before
packaging". -/
theorem C7_counterexample :
    Stage.packaging ∈ trace 0 ([] : FS) ∧ Stage.validating ∉ trace 0 ([] : FS) := by
  decide

/-- C7, amended: every run's trace is one of
start-building-buildFailed, start-building-packaging-packageFailed, or
start-building-packaging-done — sequential stages with no validation stage
at all; packaging only ever begins after the build stage completed with
status 0, and a trace ends in the done stage exactly when the run exits 0. -/
theorem C7_no_validation_stage (c : Int) (fs : FS) :
    (trace c fs = [Stage.start, Stage.building, Stage.buildFailed] ∨
     trace c fs = [Stage.start, Stage.building, Stage.packaging, Stage.packageFailed] ∨
     trace c fs = [Stage.start, Stage.building, Stage.packaging, Stage.done]) ∧
    Stage.validating ∉ trace c fs ∧
    (Stage.packaging ∈ trace c fs → c = 0) ∧
    ((trace c fs).getLast? = some Stage.done ↔ (run c fs).exitCode = 0) := by
  by_cases hc : c = 0
  · subst hc
    by_cases he : (packEntries (setFS fs outPath (FileData.archive [])) manifest).error.isSome
    · have ht : trace 0 fs =
          [Stage.start, Stage.building, Stage.packaging, Stage.packageFailed] := by
        simp [trace, he]
      have hx : (run 0 fs).exitCode = 1 := by
        rw [run_zero_exit, ← packEntries_trunc fs (FileData.archive [])]
        simp [he]
      rw [ht, hx]
      refine ⟨Or.inr (Or.inl rfl), by decide, fun _ => rfl, by decide⟩
    · have ht : trace 0 fs = [Stage.start, Stage.building, Stage.packaging, Stage.done] := by
        simp [trace, he]
      have hx : (run 0 fs).exitCode = 0 := by
        rw [run_zero_exit, ← packEntries_trunc fs (FileData.archive [])]
        simp [he]
      rw [ht, hx]
      refine ⟨Or.inr (Or.inr rfl), by decide, fun _ => rfl, by decide⟩
  · have hb : (c != 0) = true := bne_iff_ne.mpr hc
    have ht : trace c fs = [Stage.start, Stage.building, Stage.buildFailed] := by
      simp [trace, hb]
    have hx : (run c fs).exitCode = 1 := by rw [run_build_fail c fs hc]
    rw [ht, hx]
    refine ⟨Or.inl rfl, by decide, fun hmem => absurd hmem (by decide), by decide⟩

/-- C7, witness: the amended trace claim evaluated at build status 0 on the
empty filesystem, where packaging runs and fails. -/
theorem C7_witness :
    (trace 0 ([] : FS) = [Stage.start, Stage.building, Stage.buildFailed] ∨
     trace 0 ([] : FS) = [Stage.start, Stage.building, Stage.packaging, Stage.packageFailed] ∨
     trace 0 ([] : FS) = [Stage.start, Stage.building, Stage.packaging, Stage.done]) ∧
    Stage.validating ∉ trace 0 ([] : FS) ∧
    (Stage.packaging ∈ trace 0 ([] : FS) → (0 : Int) = 0) ∧
    ((trace 0 ([] : FS)).getLast? = some Stage.done ↔ (run 0 ([] : FS)).exitCode = 0) :=
  C7_no_validation_stage 0 []

/-- C8, counterexample: a build failure and a packaging failure terminate
with the same exit code 1 — refuting "a non-zero exit code specific to the
failing stage" — and the only line a failing run ever prints is the fixed
message 编译失败, which is not a target triple, while a packaging failure
prints nothing at all. -/
theorem C8_counterexample :
    (run 1 ([] : FS)).exitCode = (run 0 ([] : FS)).exitCode ∧
    (run 1 ([] : FS)).printed = [buildFailMsg] ∧
    (∀ s ∈ (run 1 ([] : FS)).printed, s ∉ triples) ∧
    (run 0 ([] : FS)).printed = [] := by
  decide

/-- C8, amended: every failing run exits with code 1, the same code for a
build failure and a packaging failure; a build failure prints only the
fixed message 编译失败, which names no target triple, and a packaging
failure prints nothing and instead surfaces an uncaught exception carrying
the missing artifact path. -/
theorem C8_exit_code_one (c : Int) (fs : FS) (h : (run c fs).exitCode ≠ 0) :
    (run c fs).exitCode = 1 ∧
    ((run c fs).printed = [buildFailMsg] ∨ (run c fs).printed = []) ∧
    (∀ s ∈ (run c fs).printed, s ∉ triples) ∧
    (c = 0 → ∃ p ∈ manifest.map Prod.fst, (run c fs).raised = some p) := by
  by_cases hc : c = 0
  · subst hc
    have hsome : (packEntries fs manifest).error.isSome := by
      rw [run_zero_exit] at h
      by_cases hs : (packEntries fs manifest).error.isSome
      · exact hs
      · simp [hs] at h
    obtain ⟨p, hp⟩ := Option.isSome_iff_exists.mp hsome
    refine ⟨?_, Or.inr rfl, ?_, fun _ => ⟨p, packEntries_error_mem fs manifest p hp, ?_⟩⟩
    · rw [run_zero_exit]; simp [hsome]
    · intro s hs
      rw [run_zero_printed] at hs
      exact absurd hs (List.not_mem_nil s)
    · rw [run_zero_raised]; exact hp
  · rw [run_build_fail c fs hc]
    refine ⟨rfl, Or.inl rfl, ?_, fun h0 => absurd h0 hc⟩
    intro s hs
    have hsb : s = buildFailMsg := by simpa using hs
    rw [hsb]
    decide

/-- C8, witness: the amended failure claim evaluated at build status 2 on
the empty filesystem. -/
theorem C8_witness :
    (run 2 ([] : FS)).exitCode = 1 ∧
    ((run 2 ([] : FS)).printed = [buildFailMsg] ∨ (run 2 ([] : FS)).printed = []) ∧
    (∀ s ∈ (run 2 ([] : FS)).printed, s ∉ triples) ∧
    ((2 : Int) = 0 → ∃ p ∈ manifest.map Prod.fst, (run 2 ([] : FS)).raised = some p) :=
  C8_exit_code_one 2 [] (by decide)

/-- C9: whenever the build succeeds, the script opens (creating or
truncating) the output archive before any artifact read, so an archive
file exists at the output path afterwards no matter how packaging went;
the final state does not depend on whatever content build.zip had before
the run, and when every artifact is missing an empty archive is left at
the output path. -/
theorem C9_output_truncated_before_reads (fs : FS) (d : FileData) :
    (∃ es, lookupFS (run 0 fs).fsAfter outPath = some (FileData.archive es)) ∧
    (run 0 fs).events.head? = some Event.openArchive ∧
    (∀ p, lookupFS (run 0 (setFS fs outPath d)).fsAfter p =
      lookupFS (run 0 fs).fsAfter p) ∧
    lookupFS (run 0 ([] : FS)).fsAfter outPath = some (FileData.archive []) := by
  have hpack : packEntries (setFS fs outPath d) manifest = packEntries fs manifest :=
    packEntries_trunc fs d
  refine ⟨⟨_, run_zero_outfile fs⟩, ?_, ?_, rfl⟩
  · rw [run_zero_events]; rfl
  · intro p
    by_cases hp : p = outPath
    · subst hp
      rw [run_zero_outfile, run_zero_outfile, hpack]
    · rw [run_zero_frame _ p hp, run_zero_frame fs p hp]
      rw [lookupFS_setFS, if_neg (fun hh => hp hh.symm)]

/-- C10: no run changes any filesystem path other than the output archive
path build.zip — in particular the artifact files are only read, never
modified — every attempted read is of one of the five declared artifact
paths, and every filesystem event is either the archive-open or a read of
a declared artifact path. -/
theorem C10_only_outPath_written (c : Int) (fs : FS) (p : String)
    (h : p ≠ outPath) :
    lookupFS (run c fs).fsAfter p = lookupFS fs p ∧
    (run c fs).reads ⊆ manifest.map Prod.fst ∧
    ∀ e ∈ (run c fs).events, e = Event.openArchive ∨
      ∃ q ∈ manifest.map Prod.fst, e = Event.readFile q := by
  by_cases hc : c = 0
  · subst hc
    refine ⟨run_zero_frame fs p h, ?_, ?_⟩
    · rw [run_zero_reads]
      exact packEntries_reads_subset fs manifest
    · intro e he
      rw [run_zero_events] at he
      rcases List.mem_cons.mp he with h1 | h1
      · exact Or.inl h1
      · obtain ⟨q, hq, rfl⟩ := List.mem_map.mp h1
        exact Or.inr ⟨q, packEntries_reads_subset fs manifest hq, rfl⟩
  · rw [run_build_fail c fs hc]
    exact ⟨rfl, by simp, by simp⟩

/-- C10, witness: the frame claim evaluated on the full filesystem at the
first artifact path. -/
theorem C10_witness :
    lookupFS (run 0 fsFull).fsAfter "./target/x86_64-pc-windows-gnu/release/sasa.dll" =
      lookupFS fsFull "./target/x86_64-pc-windows-gnu/release/sasa.dll" ∧
    (run 0 fsFull).reads ⊆ manifest.map Prod.fst ∧
    ∀ e ∈ (run 0 fsFull).events, e = Event.openArchive ∨
      ∃ q ∈ manifest.map Prod.fst, e = Event.readFile q :=
  C10_only_outPath_written 0 fsFull "./target/x86_64-pc-windows-gnu/release/sasa.dll"
    (by decide)

end Sasa
